import Mathlib

/-!
Shallow embedding of the trading-simulation and performance-evaluation core of
the AlphaSignal repository, together with theorems settling the claims about it.

Embedded source files (python):
* src/src/rl/env/crude_trading_env.py      (class CrudeTradingEnv)
* src/src/rl/env/rolling_window_env.py     (class RollingWindowMomentumEnv)
* src/src/backtesting/backtest_trading.py  (simulate_trading_strategy,
  calculate_trading_metrics, calculate_buy_and_hold)
* src/src/backtesting/backtest_accuracy.py (calculate_accuracy_metrics)
* src/src/rl/evaluation/evaluate_rl_agent.py (equity / drawdown / summary block)

Modelling conventions:
* Python floats are modelled by `ℚ`; all the properties at stake are exact
  identities or sign facts, and every constant occurring in the code
  (0.0003, 1e-6, 1e-12, ...) is an exact rational.
* `np.std` and `np.sqrt` produce irrational values, so every definition whose
  source calls them takes the estimator as an explicit function argument
  (`std_fn`, `sqrt_fn`); no claim below depends on the value of either.
* A pandas out-of-bounds access (KeyError / IndexError) is modelled by
  `Option`: `none` is the aborted computation.
* A pandas `NaN` produced by `Series.corr` on degenerate input is modelled by
  `none` in an `Option ℚ` field.
* `pct_change` of a value series has `NaN` in slot 0 which pandas `mean`,
  `std`, `cumprod`, `cummax` and `min` all skip; the embedding therefore
  represents the daily-return series as the list of the n-1 defined entries.
-/

/-- One row of the feature dataframe, restricted to the columns that the step
and reward logic of the two RL environments actually read.  The preprocessing
of both classes (`_ensure_core_features`, `_inject_xgb_predictions_and_signals`
resp. `_ensure_features`) guarantees all these columns exist, so they are plain
fields.  In `CrudeTradingEnv`, `xgb_strength` holds the injected
`abs(xgb_predicted_return)` column; `RollingWindowMomentumEnv` recomputes the
absolute value inline from `xgb_predicted_return`. -/
structure Bar where
  close_price : ℚ
  momentum_7 : ℚ
  volatility_30 : ℚ
  xgb_trend : Int
  xgb_strength : ℚ
  xgb_predicted_return : ℚ
deriving Repr, DecidableEq

/-- The per-episode mutable state shared by both environment classes:
`current_step`, `position` (0 flat, 1 long, -1 short), `entry_price`,
`holding_days`, the appended `returns` history and `unrealized_profit`.
(`CrudeTradingEnv` also carries `balance`, which its `step` never reads or
writes, so it is omitted.) -/
structure EnvState where
  current_step : Nat
  position : Int
  entry_price : ℚ
  holding_days : Nat
  returns : List ℚ
  unrealized_profit : ℚ
deriving Repr, DecidableEq

/-- Reward mode of CrudeTradingEnv: the source compares `reward_mode == "net"`
and treats every other string as the sharpe-style branch. -/
inductive RewardMode where
  | net
  | sharpe
deriving Repr, DecidableEq

/-- Constructor arguments of `CrudeTradingEnv` read by its step dynamics.
The four cost constants are hardcoded in `__init__`
(base 0.0003/0.0007, train 0.0001/0.0002) and selected by `cost_curriculum`. -/
structure CrudeCfg where
  cost_curriculum : Bool
  reward_mode : RewardMode
  holding_reward_coef : ℚ
  xgb_alignment_bonus : ℚ
  min_trade_hold : Nat
  rolling_window : Nat
  eps : ℚ
  end_index : Nat
deriving Repr, DecidableEq

/-- Active transaction-cost rate of CrudeTradingEnv
(`train_transaction_cost if cost_curriculum else base_transaction_cost`). -/
def CrudeCfg.transaction_cost_rate (c : CrudeCfg) : ℚ :=
  if c.cost_curriculum then 1 / 10000 else 3 / 10000

/-- Active slippage rate of CrudeTradingEnv
(`train_slippage if cost_curriculum else base_slippage`). -/
def CrudeCfg.slippage_rate (c : CrudeCfg) : ℚ :=
  if c.cost_curriculum then 2 / 10000 else 7 / 10000

/-- The position-update block that appears verbatim in both `CrudeTradingEnv.step`
and `RollingWindowMomentumEnv.step`: action 1 opens/flips to long when flat or
short, action 2 opens/flips to short when flat or long, anything else leaves
the state unchanged.  A transition sets `entry_price` to the pre-step price and
resets `holding_days` to 0. -/
def apply_trade_action (s : EnvState) (prev_price : ℚ) (action : Nat) : EnvState :=
  if action = 1 ∧ (s.position = 0 ∨ s.position = -1) then
    { s with position := 1, entry_price := prev_price, holding_days := 0 }
  else if action = 2 ∧ (s.position = 0 ∨ s.position = 1) then
    { s with position := -1, entry_price := prev_price, holding_days := 0 }
  else s

/-- Whether the position-update block executes a trade (RollingWindowMomentumEnv
sets its `will_trade` flag in exactly these two branches). -/
def trade_executes (s : EnvState) (action : Nat) : Bool :=
  decide ((action = 1 ∧ (s.position = 0 ∨ s.position = -1)) ∨
          (action = 2 ∧ (s.position = 0 ∨ s.position = 1)))

/-- `CrudeTradingEnv._calculate_return`, given the position that results from
applying the action: raw return from the eps-guarded price move, slippage
charged unconditionally, transaction cost charged whenever the submitted
action is 1 or 2.  Returns (net, raw, txn_cost, slippage); the source appends
the net return to `self.returns`, which the embedding does in `crude_step_core`. -/
def crude_calculate_return (cfg : CrudeCfg) (position : Int) (prev_price cur_price : ℚ)
    (action : Nat) : ℚ × ℚ × ℚ × ℚ :=
  let rtn : ℚ :=
    if position = 1 then (cur_price - prev_price) / (prev_price + cfg.eps)
    else if position = -1 then (prev_price - cur_price) / (prev_price + cfg.eps)
    else 0
  let slippage_cost := cfg.slippage_rate
  let txn_cost : ℚ := if action = 1 ∨ action = 2 then cfg.transaction_cost_rate else 0
  (rtn - txn_cost - slippage_cost, rtn, txn_cost, slippage_cost)

/-- Python list slice `xs[-n:]`: the last n elements, or the whole list when
n = 0 or n exceeds the length. -/
def pyTailSlice (n : Nat) (xs : List ℚ) : List ℚ :=
  if n = 0 then xs else xs.drop (xs.length - n)

/-- `CrudeTradingEnv._calculate_reward`, with `np.std` abstracted as `std_fn`
(its value is irrational over ℚ; no claim depends on it).  Arguments are the
already-updated position, holding-day counter and return history, and the row
of the dataframe at the post-increment `current_step` (for the xgb columns).
The two bonus guards use Python float truthiness of the coefficients. -/
def crude_calculate_reward (std_fn : List ℚ → ℚ) (cfg : CrudeCfg) (position : Int)
    (holding_days : Nat) (returns : List ℚ) (cur_bar : Bar) (net_rtn raw_rtn : ℚ) : ℚ :=
  let base : ℚ :=
    match cfg.reward_mode with
    | RewardMode.net => net_rtn
    | RewardMode.sharpe =>
      let vol : ℚ :=
        if returns.length < 2 then (if returns = [] then 0 else std_fn returns)
        else std_fn (pyTailSlice cfg.rolling_window returns)
      net_rtn / max vol cfg.eps
  let afterHolding : ℚ :=
    if cfg.holding_reward_coef ≠ 0 ∧ position ≠ 0 ∧ cfg.min_trade_hold ≤ holding_days then
      if (position = 1 ∧ 0 < raw_rtn) ∨ (position = -1 ∧ raw_rtn < 0) then
        base + cfg.holding_reward_coef * |raw_rtn|
      else base
    else base
  if cfg.xgb_alignment_bonus ≠ 0 then
    if position ≠ 0 ∧ cur_bar.xgb_trend ≠ 0 ∧ position = cur_bar.xgb_trend then
      afterHolding + cfg.xgb_alignment_bonus * cur_bar.xgb_strength
    else afterHolding
  else afterHolding

/-- The `info` dict built by `CrudeTradingEnv.step`. -/
structure CrudeInfo where
  step : Nat
  position : Int
  entry_price : ℚ
  net_return : ℚ
  raw_return : ℚ
  txn_cost : ℚ
  slippage : ℚ
  unrealized_profit : ℚ
deriving Repr, DecidableEq

/-- Outcome of one call of `CrudeTradingEnv.step`: either the end-of-data early
return (reward 0.0, message info only), or a full step with its reward,
terminated flag and info dict. -/
inductive CrudeStepResult where
  | endOfData (state : EnvState)
  | stepped (state : EnvState) (reward : ℚ) (terminated : Bool) (info : CrudeInfo)
deriving Repr, DecidableEq

/-- State carried by a step result. -/
def CrudeStepResult.state : CrudeStepResult → EnvState
  | CrudeStepResult.endOfData s => s
  | CrudeStepResult.stepped s _ _ _ => s

/-- Info dict of a step result; the end-of-data early return has none. -/
def CrudeStepResult.info? : CrudeStepResult → Option CrudeInfo
  | CrudeStepResult.endOfData _ => none
  | CrudeStepResult.stepped _ _ _ i => some i

/-- Reward of a full step result. -/
def CrudeStepResult.reward? : CrudeStepResult → Option ℚ
  | CrudeStepResult.endOfData _ => none
  | CrudeStepResult.stepped _ r _ _ => some r

/-- Body of `CrudeTradingEnv.step` past the early return, given the dataframe
rows at `current_step` and `current_step + 1`.  Order as in the source: apply
the action, advance the step, compute the cost-adjusted return (appending it
to the history), update unrealized profit, increment `holding_days` while a
position is held, then compose the reward from the updated state and the
post-increment row. -/
def crude_step_core (std_fn : List ℚ → ℚ) (cfg : CrudeCfg) (prev_bar cur_bar : Bar)
    (s : EnvState) (action : Nat) : CrudeStepResult :=
  let prev_price := prev_bar.close_price
  let s1 := apply_trade_action s prev_price action
  let new_step := s.current_step + 1
  let cur_price := cur_bar.close_price
  let r4 := crude_calculate_return cfg s1.position prev_price cur_price action
  let net_rtn := r4.1
  let raw_rtn := r4.2.1
  let txn_cost := r4.2.2.1
  let slippage := r4.2.2.2
  let returns2 := s1.returns ++ [net_rtn]
  let unreal : ℚ :=
    if s1.position = 1 then cur_price - s1.entry_price
    else if s1.position = -1 then s1.entry_price - cur_price
    else 0
  let hd2 := if s1.position ≠ 0 then s1.holding_days + 1 else s1.holding_days
  let s2 : EnvState :=
    { s1 with
      current_step := new_step,
      returns := returns2,
      unrealized_profit := unreal,
      holding_days := hd2 }
  let reward := crude_calculate_reward std_fn cfg s2.position s2.holding_days s2.returns
    cur_bar net_rtn raw_rtn
  CrudeStepResult.stepped s2 reward (decide (cfg.end_index ≤ new_step))
    { step := new_step, position := s2.position, entry_price := s2.entry_price,
      net_return := net_rtn, raw_return := raw_rtn, txn_cost := txn_cost,
      slippage := slippage, unrealized_profit := unreal }

/-- `CrudeTradingEnv.step`.  The early return fires when
`current_step >= end_index`; otherwise the two dataframe rows are fetched
(`none` models the KeyError of an out-of-range `df.loc`). -/
def crude_step (std_fn : List ℚ → ℚ) (cfg : CrudeCfg) (df : List Bar) (s : EnvState)
    (action : Nat) : Option CrudeStepResult :=
  if cfg.end_index ≤ s.current_step then some (CrudeStepResult.endOfData s)
  else
    match df[s.current_step]?, df[s.current_step + 1]? with
    | some prev_bar, some cur_bar => some (crude_step_core std_fn cfg prev_bar cur_bar s action)
    | _, _ => none

/-- Constructor arguments of `RollingWindowMomentumEnv` read by its step
dynamics. -/
structure RollingCfg where
  base_transaction_cost : ℚ
  base_slippage : ℚ
  train_transaction_cost : ℚ
  train_slippage : ℚ
  use_cost_curriculum : Bool
  min_holding_days : Nat
  momentum_coef : ℚ
  vol_penalty : ℚ
  xgb_align_coef : ℚ
deriving Repr, DecidableEq

/-- Active transaction cost of RollingWindowMomentumEnv. -/
def RollingCfg.transaction_cost (c : RollingCfg) : ℚ :=
  if c.use_cost_curriculum then c.train_transaction_cost else c.base_transaction_cost

/-- Active slippage of RollingWindowMomentumEnv. -/
def RollingCfg.slippage (c : RollingCfg) : ℚ :=
  if c.use_cost_curriculum then c.train_slippage else c.base_slippage

/-- The `info` dict built by `RollingWindowMomentumEnv.step`. -/
structure RollingInfo where
  step : Nat
  position : Int
  net_return : ℚ
  raw_return : ℚ
  txn_cost : ℚ
  slippage : ℚ
  unrealized_profit : ℚ
deriving Repr, DecidableEq

/-- Return value of `RollingWindowMomentumEnv.step` (observation omitted). -/
structure RollingResult where
  state : EnvState
  reward : ℚ
  done : Bool
  info : RollingInfo
deriving Repr, DecidableEq

/-- The hardcoded `1e-12` guard in the return denominators of
`RollingWindowMomentumEnv.step`. -/
def rollingEps : ℚ := 1 / 1000000000000

/-- Minimum-hold coercion at the top of `RollingWindowMomentumEnv.step`:
a flip request (action 1 or 2) while a position is held for fewer than
`min_holding_days` is silently replaced by 0 (hold). -/
def rolling_effective_action (cfg : RollingCfg) (s : EnvState) (action0 : Nat) : Nat :=
  if s.position ≠ 0 ∧ s.holding_days < cfg.min_holding_days ∧ (action0 = 1 ∨ action0 = 2)
  then 0 else action0

/-- Body of `RollingWindowMomentumEnv.step` given the dataframe rows at
`current_step` and `current_step + 1`.  Order as in the source: coerce the
action, apply it (recording `will_trade`), advance, compute the raw return
from the held position, charge both cost legs only when a trade executed,
append the net return, update `holding_days` (reset to 0 while flat) and
unrealized profit, then compose the shaped reward from the post-increment row;
`done` when the new step reaches `end_index = len(df) - 1`. -/
def rolling_step_core (cfg : RollingCfg) (df_len : Nat) (prev_bar cur_bar : Bar)
    (s : EnvState) (action0 : Nat) : RollingResult :=
  let prev_price := prev_bar.close_price
  let action := rolling_effective_action cfg s action0
  let will_trade := trade_executes s action
  let s1 := apply_trade_action s prev_price action
  let new_step := s.current_step + 1
  let cur_price := cur_bar.close_price
  let raw_rtn : ℚ :=
    if s1.position = 1 then (cur_price - prev_price) / (prev_price + rollingEps)
    else if s1.position = -1 then (prev_price - cur_price) / (prev_price + rollingEps)
    else 0
  let txn_cost : ℚ := if will_trade then cfg.transaction_cost else 0
  let slippage_cost : ℚ := if will_trade then cfg.slippage else 0
  let net_rtn := raw_rtn - txn_cost - slippage_cost
  let returns2 := s1.returns ++ [net_rtn]
  let hd2 : Nat := if s1.position ≠ 0 then s1.holding_days + 1 else 0
  let unreal : ℚ :=
    if s1.position = 1 then cur_price - s1.entry_price
    else if s1.position = -1 then s1.entry_price - cur_price
    else 0
  let dir : ℚ := if s1.position = 1 then 1 else if s1.position = -1 then -1 else 0
  let reward0 := net_rtn + cfg.momentum_coef * (cur_bar.momentum_7 - 1) * dir
  let reward1 := reward0 -
    cfg.vol_penalty * cur_bar.volatility_30 * (if s1.position ≠ 0 then (1 : ℚ) else 0)
  let reward2 :=
    if s1.position ≠ 0 ∧ cur_bar.xgb_trend ≠ 0 ∧ s1.position = cur_bar.xgb_trend then
      reward1 + cfg.xgb_align_coef * |cur_bar.xgb_predicted_return|
    else reward1
  { state := { s1 with
        current_step := new_step,
        returns := returns2,
        holding_days := hd2,
        unrealized_profit := unreal },
    reward := reward2,
    done := decide (df_len - 1 ≤ new_step),
    info := { step := new_step,
              position := s1.position,
              net_return := net_rtn,
              raw_return := raw_rtn,
              txn_cost := txn_cost,
              slippage := slippage_cost,
              unrealized_profit := unreal } }

/-- `RollingWindowMomentumEnv.step`; `none` models the KeyError of an
out-of-range `df.loc` access. -/
def rolling_step (cfg : RollingCfg) (df : List Bar) (s : EnvState) (action0 : Nat) :
    Option RollingResult :=
  match df[s.current_step]?, df[s.current_step + 1]? with
  | some prev_bar, some cur_bar =>
    some (rolling_step_core cfg df.length prev_bar cur_bar s action0)
  | _, _ => none

/-- Iterated `CrudeTradingEnv.step` over a list of actions, as an evaluation
loop drives it; a `none` (out-of-bounds) step aborts the run with the state
reached so far. -/
def crude_run (std_fn : List ℚ → ℚ) (cfg : CrudeCfg) (df : List Bar) :
    EnvState → List Nat → EnvState
  | s, [] => s
  | s, a :: rest =>
    match crude_step std_fn cfg df s a with
    | some r => crude_run std_fn cfg df r.state rest
    | none => s

/-- Iterated `RollingWindowMomentumEnv.step` over a list of actions. -/
def rolling_run (cfg : RollingCfg) (df : List Bar) : EnvState → List Nat → EnvState
  | s, [] => s
  | s, a :: rest =>
    match rolling_step cfg df s a with
    | some r => rolling_run cfg df r.state rest
    | none => s

/-- One merged row of the rule-based backtest input: model `prediction` for the
next day and the `actual` close price of the day. -/
structure PredRow where
  prediction : ℚ
  actual : ℚ
deriving Repr, DecidableEq

/-- The action column of the rule-based simulator. -/
inductive TAction where
  | BUY
  | SELL
  | HOLD
deriving Repr, DecidableEq

/-- One row of the results ledger built by `simulate_trading_strategy`. -/
structure TradeRow where
  price : ℚ
  prediction : ℚ
  action : TAction
  position : ℚ
  cash : ℚ
  portfolio_value : ℚ
  return_pct : ℚ
deriving Repr, DecidableEq

/-- The trading-signal block of `simulate_trading_strategy` (lines 43-55):
BUY converts all cash into barrels at `price * (1 + transaction_cost)` when a
positive forecast edge exists and no position is held; SELL liquidates at
`price * (1 - transaction_cost)` on a negative edge while holding; otherwise
HOLD changes nothing.  Returns (position, cash, action). -/
def trading_signal (transaction_cost prediction current_price position cash : ℚ) :
    ℚ × ℚ × TAction :=
  if current_price < prediction ∧ position = 0 then
    (cash / (current_price * (1 + transaction_cost)), 0, TAction.BUY)
  else if prediction < current_price ∧ 0 < position then
    (0, position * current_price * (1 - transaction_cost), TAction.SELL)
  else (position, cash, TAction.HOLD)

/-- Loop of `simulate_trading_strategy`: `for i in range(len(df) - 1)` visits
every row but the last, threading barrels held and cash, and appends one
`TradeRow` per visited row.  (The row at index i+1 is read into `next_price`
by the source but never used.) -/
def simulate_go (transaction_cost initial_capital : ℚ) :
    List PredRow → ℚ → ℚ → List TradeRow
  | [], _, _ => []
  | [_], _, _ => []
  | r :: r2 :: rest, position, cash =>
    let current_price := r.actual
    let sig := trading_signal transaction_cost r.prediction current_price position cash
    let position2 := sig.1
    let cash2 := sig.2.1
    let portfolio_value := cash2 + position2 * current_price
    { price := current_price,
      prediction := r.prediction,
      action := sig.2.2,
      position := position2,
      cash := cash2,
      portfolio_value := portfolio_value,
      return_pct := (portfolio_value - initial_capital) / initial_capital * 100 } ::
      simulate_go transaction_cost initial_capital (r2 :: rest) position2 cash2

/-- `simulate_trading_strategy`: runs the loop from all-cash and returns the
ledger.  The post-loop block of the source (lines 72-75) computes, into local
variables that are then discarded, the cash from closing a still-open position
at the final price; that computation is `close_out_cash` below and never
reaches this returned ledger. -/
def simulate_trading_strategy (df : List PredRow) (initial_capital transaction_cost : ℚ) :
    List TradeRow :=
  simulate_go transaction_cost initial_capital df 0 initial_capital

/-- The discarded post-loop closure of `simulate_trading_strategy` (lines
72-75): cash from selling an open position at the last row's price, net of the
transaction cost. -/
def close_out_cash (df : List PredRow) (transaction_cost position cash : ℚ) : ℚ :=
  if 0 < position then
    match df.getLast? with
    | some r => position * r.actual * (1 - transaction_cost)
    | none => cash
  else cash

/-- pandas `Series.pct_change` with the leading NaN slot removed: entry i is
`v[i+1]/v[i] - 1`.  Every aggregation the source applies to the series (mean,
std, cumprod, cummax, min) skips NaN, so dropping the slot is faithful. -/
def pct_change (xs : List ℚ) : List ℚ :=
  List.zipWith (fun prev cur => (cur - prev) / prev) xs xs.tail

/-- pandas `Series.cumprod`: entry i is the product of entries 0..i. -/
def cumprod : List ℚ → List ℚ
  | [] => []
  | x :: xs => x :: (cumprod xs).map (fun y => x * y)

/-- pandas `Series.cummax`: entry i is the maximum of entries 0..i. -/
def running_max : List ℚ → List ℚ
  | [] => []
  | x :: xs => x :: (running_max xs).map (fun y => max x y)

/-- Equity curve from a return ledger, as built by both
`evaluate_rl_agent.backtest` (`net_equity`) and `calculate_trading_metrics`
(`cumulative_returns`): cumulative product of `1 + r`. -/
def net_equity (rs : List ℚ) : List ℚ := cumprod (rs.map (fun r => 1 + r))

/-- The `net_cummax` column of `evaluate_rl_agent.backtest` / `running_max` of
`calculate_trading_metrics`. -/
def net_cummax (rs : List ℚ) : List ℚ := running_max (net_equity rs)

/-- The drawdown series `(equity - cummax) / cummax` computed by both call
sites. -/
def net_drawdown (rs : List ℚ) : List ℚ :=
  List.zipWith (fun e m => (e - m) / m) (net_equity rs) (net_cummax rs)

/-- The reported maximum drawdown: `drawdown.min()` (`none` is the NaN a
pandas min of an empty series yields). -/
def net_max_drawdown (rs : List ℚ) : Option ℚ := (net_drawdown rs).min?

/-- Maximum of a list the way pandas `Series.max` sees a nonempty series;
0 on the empty list (where pandas would give NaN). -/
def list_max1 : List ℚ → ℚ
  | [] => 0
  | x :: xs => xs.foldl max x

/-- The spec-side running maximum: the maximum of `xs[0..i]`, written
independently of the `cummax` recursion so the code's drawdown can be compared
against the specification formula `running_max(equity[0..i])`. -/
def spec_running_max (xs : List ℚ) (i : Nat) : ℚ := list_max1 (xs.take (i + 1))

/-- Arithmetic mean (pandas `Series.mean` of a nonempty series). -/
def listMean (xs : List ℚ) : ℚ := xs.sum / (xs.length : ℚ)

/-- The metrics dict of `calculate_trading_metrics`. -/
structure TradingMetrics where
  initial_capital : ℚ
  final_value : ℚ
  total_return_pct : ℚ
  total_return_usd : ℚ
  sharpe : ℚ
  max_drawdown_pct : ℚ
  total_trades : Nat
  win_rate : ℚ
  avg_daily_return : ℚ
  volatility : ℚ
deriving Repr, DecidableEq

/-- `calculate_trading_metrics`.  `std_fn` stands for the pandas sample
standard deviation and `sqrt_fn` for `np.sqrt` (both irrational over ℚ; no
claim depends on either).  `none` models the IndexError of `iloc[-1]` on an
empty ledger.  Note the win-rate block: `winning_trades` counts individual
BUY/SELL rows whose running `return_pct` is positive, while `total_trades`
is half the number of BUY/SELL rows. -/
def calculate_trading_metrics (std_fn : List ℚ → ℚ) (sqrt_fn : ℚ → ℚ)
    (results : List TradeRow) (initial_capital : ℚ) : Option TradingMetrics :=
  match results.getLast? with
  | none => none
  | some lastRow =>
    let final_value := lastRow.portfolio_value
    let daily_return := pct_change (results.map (fun r => r.portfolio_value))
    let mean_return := listMean daily_return
    let std_return := std_fn daily_return
    let sharpe_val : ℚ := if 0 < std_return then mean_return / std_return * sqrt_fn 252 else 0
    let max_dd : ℚ := ((net_drawdown daily_return).min?.getD 0) * 100
    let trades := results.filter (fun r => r.action = TAction.BUY ∨ r.action = TAction.SELL)
    let winning_trades := (trades.filter (fun r => 0 < r.return_pct)).length
    let total_trades := trades.length / 2
    let win_rate : ℚ :=
      if 0 < total_trades then (winning_trades : ℚ) / (total_trades : ℚ) * 100 else 0
    some { initial_capital := initial_capital,
           final_value := final_value,
           total_return_pct := (final_value - initial_capital) / initial_capital * 100,
           total_return_usd := final_value - initial_capital,
           sharpe := sharpe_val,
           max_drawdown_pct := max_dd,
           total_trades := total_trades,
           win_rate := win_rate,
           avg_daily_return := mean_return * 100,
           volatility := std_return * 100 }

/-- The metrics dict of `calculate_buy_and_hold`: buy `initial_capital /
first_price` barrels, value them at the last price.  `none` models the
IndexError of `iloc` on an empty frame. -/
structure BnhMetrics where
  initial_capital : ℚ
  final_value : ℚ
  total_return_pct : ℚ
  total_return_usd : ℚ
deriving Repr, DecidableEq

/-- `calculate_buy_and_hold`. -/
def calculate_buy_and_hold (df : List PredRow) (initial_capital : ℚ) : Option BnhMetrics :=
  match df.head?, df.getLast? with
  | some firstRow, some lastRow =>
    let barrels := initial_capital / firstRow.actual
    let final_value := barrels * lastRow.actual
    some { initial_capital := initial_capital,
           final_value := final_value,
           total_return_pct := (final_value - initial_capital) / initial_capital * 100,
           total_return_usd := final_value - initial_capital }
  | _, _ => none

/-- The strategy-vs-baseline pair assembled by `run_trading_backtest`: the
strategy ledger is simulated with the given cost rate and scored, and the
buy-and-hold baseline is computed from the same price series. -/
def run_trading_backtest (std_fn : List ℚ → ℚ) (sqrt_fn : ℚ → ℚ) (df : List PredRow)
    (initial_capital transaction_cost : ℚ) : Option TradingMetrics × Option BnhMetrics :=
  (calculate_trading_metrics std_fn sqrt_fn
    (simulate_trading_strategy df initial_capital transaction_cost) initial_capital,
   calculate_buy_and_hold df initial_capital)

/-- The metrics dict of `calculate_accuracy_metrics`; `correlation` is `none`
when pandas `Series.corr` yields NaN (fewer than two pairs, or zero variance). -/
structure AccMetrics where
  mae : ℚ
  rmse : ℚ
  mape : ℚ
  max_error : ℚ
  directional_accuracy : ℚ
  total_predictions : Nat
  avg_actual_price : ℚ
  avg_predicted_price : ℚ
  correlation : Option ℚ
deriving Repr, DecidableEq

/-- The `pred_direction` column: `prediction[i] > actual[i-1]`, with row 0
compared against NaN and hence 0 (false), as `(x > NaN).astype(int)` gives. -/
def pred_direction (df : List PredRow) : List Bool :=
  match df with
  | [] => []
  | _ :: _ =>
    false :: List.zipWith (fun prev cur => decide (prev.actual < cur.prediction)) df df.tail

/-- The `actual_direction` column: `actual[i] > actual[i-1]`, row 0 false. -/
def actual_direction (df : List PredRow) : List Bool :=
  match df with
  | [] => []
  | _ :: _ =>
    false :: List.zipWith (fun prev cur => decide (prev.actual < cur.actual)) df df.tail

/-- Count of positions where the two direction columns agree. -/
def matching_directions (a b : List Bool) : Nat :=
  (List.zipWith (fun x y => decide (x = y)) a b).count true

/-- pandas `Series.corr` (Pearson), with `sqrt_fn` for the square root:
NaN (`none`) when fewer than two points or when either variance is zero. -/
def pearson (sqrt_fn : ℚ → ℚ) (xs ys : List ℚ) : Option ℚ :=
  if xs.length < 2 then none
  else
    let mx := listMean xs
    let my := listMean ys
    let cov := (List.zipWith (fun a b => (a - mx) * (b - my)) xs ys).sum
    let vx := (xs.map (fun a => (a - mx) ^ 2)).sum
    let vy := (ys.map (fun b => (b - my) ^ 2)).sum
    if vx = 0 ∨ vy = 0 then none else some (cov / sqrt_fn (vx * vy))

/-- `calculate_accuracy_metrics`: the empty dict (here `none`) exactly when the
input frame is empty, otherwise the populated metrics dict.  `sqrt_fn` stands
for `np.sqrt`. -/
def calculate_accuracy_metrics (sqrt_fn : ℚ → ℚ) (df : List PredRow) : Option AccMetrics :=
  if df = [] then none
  else
    let errors := df.map (fun r => r.prediction - r.actual)
    let abs_errors := errors.map (fun e => |e|)
    let pct_errors := df.map (fun r => |r.prediction - r.actual| / r.actual * 100)
    let n : ℚ := (df.length : ℚ)
    some { mae := abs_errors.sum / n,
           rmse := sqrt_fn ((errors.map (fun e => e ^ 2)).sum / n),
           mape := pct_errors.sum / n,
           max_error := list_max1 abs_errors,
           directional_accuracy :=
             ((matching_directions (pred_direction df) (actual_direction df) : ℚ) / n) * 100,
           total_predictions := df.length,
           avg_actual_price := (df.map (fun r => r.actual)).sum / n,
           avg_predicted_price := (df.map (fun r => r.prediction)).sum / n,
           correlation := pearson sqrt_fn (df.map (fun r => r.prediction))
             (df.map (fun r => r.actual)) }

/-- A stand-in estimator for `np.std` in concrete evaluations; none of the
evaluated paths reach it. -/
def stdZero : List ℚ → ℚ := fun _ => 0

/-- A stand-in for `np.sqrt` in concrete evaluations; none of the evaluated
claims depend on its value. -/
def sqrtZero : ℚ → ℚ := fun _ => 0

/-- A dataframe row with the given close price and neutral auxiliary columns. -/
def bar0 (p : ℚ) : Bar :=
  { close_price := p, momentum_7 := 1, volatility_30 := 0, xgb_trend := 0,
    xgb_strength := 0, xgb_predicted_return := 0 }

/-- A CrudeTradingEnv configuration with realistic (non-curriculum) costs,
net reward mode, all shaping coefficients 0, and a two-row dataframe in view
(`end_index = 1`).  `eps = 0` keeps concrete return values exact and is a
legal constructor argument. -/
def cfgC : CrudeCfg :=
  { cost_curriculum := false, reward_mode := RewardMode.net, holding_reward_coef := 0,
    xgb_alignment_bonus := 0, min_trade_hold := 1, rolling_window := 30,
    eps := 0, end_index := 1 }

/-- Two-bar price series 100 → 110 for the crude environment. -/
def dfC : List Bar := [bar0 100, bar0 110]

/-- A RollingWindowMomentumEnv configuration matching the evaluation call site
(realistic costs 0.0003/0.0007, curriculum off, `min_holding_days = 3`) with
all three shaping coefficients set to 0. -/
def cfgR : RollingCfg :=
  { base_transaction_cost := 3 / 10000, base_slippage := 7 / 10000,
    train_transaction_cost := 1 / 20000, train_slippage := 1 / 10000,
    use_cost_curriculum := false, min_holding_days := 3,
    momentum_coef := 0, vol_penalty := 0, xgb_align_coef := 0 }

/-- Six bars at a constant price of 100. -/
def df3 : List Bar := [bar0 100, bar0 100, bar0 100, bar0 100, bar0 100, bar0 100]

/-- A two-bar series whose first consumed price is 0 (non-positive). -/
def df7 : List Bar := [bar0 0, bar0 5]

/-- The reset state of either environment at step 0. -/
def esFlat : EnvState :=
  { current_step := 0, position := 0, entry_price := 0, holding_days := 0,
    returns := [], unrealized_profit := 0 }

/-- The state reached from `esFlat` on `df3` by opening LONG at step 0 with
`cfgR`: one holding day, entry at 100, one booked net return of -0.001. -/
def esHeld : EnvState :=
  { current_step := 1, position := 1, entry_price := 100, holding_days := 1,
    returns := [-1 / 1000], unrealized_profit := 0 }

/-- A LONG state whose holding-day counter has already reached the minimum
hold of 3. -/
def esHeld3 : EnvState :=
  { current_step := 1, position := 1, entry_price := 100, holding_days := 3,
    returns := [], unrealized_profit := 0 }

/-- Result of `crude_step stdZero cfgC dfC esFlat 0` (HOLD while flat):
raw return 0, slippage 0.0007 still charged, reward equal to the net return. -/
def resC1 : CrudeStepResult :=
  CrudeStepResult.stepped
    { current_step := 1, position := 0, entry_price := 0, holding_days := 0,
      returns := [-7 / 10000], unrealized_profit := 0 }
    (-7 / 10000) true
    { step := 1, position := 0, entry_price := 0, net_return := -7 / 10000,
      raw_return := 0, txn_cost := 0, slippage := 7 / 10000, unrealized_profit := 0 }

/-- Result of `rolling_step cfgR df3 esFlat 0` (HOLD while flat): no trade,
no cost, zero reward. -/
def resC1R : RollingResult :=
  { state := { current_step := 1,
               position := 0,
               entry_price := 0,
               holding_days := 0,
               returns := [0],
               unrealized_profit := 0 },
    reward := 0,
    done := false,
    info := { step := 1,
              position := 0,
              net_return := 0,
              raw_return := 0,
              txn_cost := 0,
              slippage := 0,
              unrealized_profit := 0 } }

/-- Result of `rolling_step cfgR df3 esHeld 2` (flip request one day after
opening): coerced to hold, position and entry price kept, holding days
incremented to 2. -/
def resC3 : RollingResult :=
  { state := { current_step := 2,
               position := 1,
               entry_price := 100,
               holding_days := 2,
               returns := [-1 / 1000, 0],
               unrealized_profit := 0 },
    reward := 0,
    done := false,
    info := { step := 2,
              position := 1,
              net_return := 0,
              raw_return := 0,
              txn_cost := 0,
              slippage := 0,
              unrealized_profit := 0 } }

/-- Result of `rolling_step cfgR df3 esHeld3 0` (HOLD with an open LONG): both
cost legs 0 on a held position without a flip. -/
def resC2R : RollingResult :=
  { state := { current_step := 2,
               position := 1,
               entry_price := 100,
               holding_days := 4,
               returns := [0],
               unrealized_profit := 0 },
    reward := 0,
    done := false,
    info := { step := 2,
              position := 1,
              net_return := 0,
              raw_return := 0,
              txn_cost := 0,
              slippage := 0,
              unrealized_profit := 0 } }

/-- Result of `rolling_step cfgR df3 esFlat 1`: opening LONG at step 0 books
the two cost legs (net return -0.001) and leaves the env in `esHeld`. -/
def resOpen : RollingResult :=
  { state := esHeld,
    reward := -1 / 1000,
    done := false,
    info := { step := 1,
              position := 1,
              net_return := -1 / 1000,
              raw_return := 0,
              txn_cost := 3 / 10000,
              slippage := 7 / 10000,
              unrealized_profit := 0 } }

/-- Result of `rolling_step cfgR df3 esHeld3 2`: with the minimum hold
satisfied, the flip to SHORT executes. -/
def resFlip : RollingResult :=
  { state := { current_step := 2,
               position := -1,
               entry_price := 100,
               holding_days := 1,
               returns := [-1 / 1000],
               unrealized_profit := 0 },
    reward := -1 / 1000,
    done := false,
    info := { step := 2,
              position := -1,
              net_return := -1 / 1000,
              raw_return := 0,
              txn_cost := 3 / 10000,
              slippage := 7 / 10000,
              unrealized_profit := 0 } }

/-- Result of `rolling_step cfgR df7 esFlat 1`: the consumed bar price is 0
(non-positive) and the step nevertheless produces a huge eps-guarded return
instead of failing. -/
def resPrice0 : RollingResult :=
  { state := { current_step := 1,
               position := 1,
               entry_price := 0,
               holding_days := 1,
               returns := [4999999999999999 / 1000],
               unrealized_profit := 5 },
    reward := 4999999999999999 / 1000,
    done := true,
    info := { step := 1,
              position := 1,
              net_return := 4999999999999999 / 1000,
              raw_return := 5000000000000,
              txn_cost := 3 / 10000,
              slippage := 7 / 10000,
              unrealized_profit := 5 } }

/-- A two-bar series 1 -> 3 on which a SHORT position loses more than 100%
in one step. -/
def dfShort : List Bar := [bar0 1, bar0 3]

/-- Rule-based backtest input for the end-of-series claim: a BUY fires at the
first row and the position is still open when the loop ends. -/
def df5 : List PredRow := [⟨101, 100⟩, ⟨101, 100⟩, ⟨0, 100⟩]

/-- Rule-based backtest input for the win-rate claim: one full profitable
round trip (BUY, SELL) followed by a re-entry BUY at a gain, making three
BUY/SELL rows of which two have positive running return. -/
def df6 : List PredRow := [⟨101, 100⟩, ⟨101, 100⟩, ⟨100, 200⟩, ⟨201, 200⟩, ⟨0, 100⟩]

/-- Price series 100 → 110 for the buy-and-hold witness. -/
def dfBH : List PredRow := [⟨0, 100⟩, ⟨0, 110⟩]

/-- Buy-and-hold metrics on `dfBH` with capital 10000. -/
def mBH : BnhMetrics :=
  { initial_capital := 10000, final_value := 11000, total_return_pct := 10,
    total_return_usd := 1000 }

/-- With net reward mode and both bonus coefficients 0, the crude reward
composer returns the net return unchanged. -/
theorem crude_calculate_reward_net (std_fn : List ℚ → ℚ) (cfg : CrudeCfg) (position : Int)
    (holding_days : Nat) (returns : List ℚ) (cur_bar : Bar) (net_rtn raw_rtn : ℚ)
    (hmode : cfg.reward_mode = RewardMode.net) (hcoef : cfg.holding_reward_coef = 0)
    (hbonus : cfg.xgb_alignment_bonus = 0) :
    crude_calculate_reward std_fn cfg position holding_days returns cur_bar net_rtn raw_rtn
      = net_rtn := by
  simp [crude_calculate_reward, hmode, hcoef, hbonus]

/-- C1: for every step of either RL environment, if the reward mode is net and
every shaping coefficient (holding_reward_coef, xgb_alignment_bonus for
CrudeTradingEnv; momentum_coef, vol_penalty, xgb_align_coef for
RollingWindowMomentumEnv) is 0, the reward returned by step equals the
net_return reported in the step's info dict. -/
theorem c1_reward_reduces_to_net_return :
    (∀ (std_fn : List ℚ → ℚ) (cfg : CrudeCfg) (df : List Bar) (s : EnvState) (a : Nat)
      (res : CrudeStepResult),
      cfg.reward_mode = RewardMode.net → cfg.holding_reward_coef = 0 →
      cfg.xgb_alignment_bonus = 0 → crude_step std_fn cfg df s a = some res →
      res.reward? = Option.map CrudeInfo.net_return res.info?) ∧
    (∀ (cfg : RollingCfg) (df : List Bar) (s : EnvState) (a : Nat) (res : RollingResult),
      cfg.momentum_coef = 0 → cfg.vol_penalty = 0 → cfg.xgb_align_coef = 0 →
      rolling_step cfg df s a = some res → res.reward = res.info.net_return) := by
  constructor
  · intro std_fn cfg df s a res hmode hcoef hbonus hstep
    unfold crude_step at hstep
    split at hstep
    · injection hstep with h
      subst h
      simp [CrudeStepResult.reward?, CrudeStepResult.info?]
    · split at hstep
      · injection hstep with h
        subst h
        simp [crude_step_core, CrudeStepResult.reward?, CrudeStepResult.info?,
          crude_calculate_reward, hmode, hcoef, hbonus]
      · exact absurd hstep (by simp)
  · intro cfg df s a res h1 h2 h3 hstep
    unfold rolling_step at hstep
    split at hstep
    · injection hstep with h
      subst h
      simp [rolling_step_core, h1, h2, h3]
    · exact absurd hstep (by simp)

/-- Witness for C1: a concrete hold step of each environment, with all
hypotheses discharged at the fixture inputs. -/
theorem c1_witness :
    cfgC.reward_mode = RewardMode.net ∧ cfgC.holding_reward_coef = 0 ∧
    cfgC.xgb_alignment_bonus = 0 ∧ crude_step stdZero cfgC dfC esFlat 0 = some resC1 ∧
    resC1.reward? = Option.map CrudeInfo.net_return resC1.info? ∧
    cfgR.momentum_coef = 0 ∧ cfgR.vol_penalty = 0 ∧ cfgR.xgb_align_coef = 0 ∧
    rolling_step cfgR df3 esFlat 0 = some resC1R ∧
    resC1R.reward = resC1R.info.net_return := by
  have hc : crude_step stdZero cfgC dfC esFlat 0 = some resC1 := by
    simp [crude_step, crude_step_core, crude_calculate_return, crude_calculate_reward,
      apply_trade_action, cfgC, dfC, esFlat, bar0, resC1, CrudeCfg.transaction_cost_rate,
      CrudeCfg.slippage_rate, stdZero]
    norm_num
  have hr : rolling_step cfgR df3 esFlat 0 = some resC1R := by
    simp [rolling_step, rolling_step_core, rolling_effective_action, trade_executes,
      apply_trade_action, cfgR, df3, esFlat, bar0, resC1R, RollingCfg.transaction_cost,
      RollingCfg.slippage, rollingEps]
  exact ⟨rfl, rfl, rfl, hc,
    c1_reward_reduces_to_net_return.1 stdZero cfgC dfC esFlat 0 resC1 rfl rfl rfl hc,
    rfl, rfl, rfl, hr,
    c1_reward_reduces_to_net_return.2 cfgR df3 esFlat 0 resC1R rfl rfl rfl hr⟩

/-- When the position-update block executes no trade, the state is unchanged. -/
theorem apply_trade_action_of_not_executes (s : EnvState) (p : ℚ) (a : Nat)
    (h : trade_executes s a = false) : apply_trade_action s p a = s := by
  rw [trade_executes, decide_eq_false_iff_not] at h
  unfold apply_trade_action
  rw [if_neg (fun hA => h (Or.inl hA)), if_neg (fun hB => h (Or.inr hB))]

/-- When the position-update block executes a trade, the position changes. -/
theorem apply_trade_action_position_ne (s : EnvState) (p : ℚ) (a : Nat)
    (h : trade_executes s a = true) : (apply_trade_action s p a).position ≠ s.position := by
  rw [trade_executes, decide_eq_true_eq] at h
  unfold apply_trade_action
  rcases h with ⟨ha, hp⟩ | ⟨ha, hp⟩
  · subst ha
    rw [if_pos ⟨rfl, hp⟩]
    rcases hp with h0 | h0 <;> rw [h0] <;> simp
  · subst ha
    rw [if_neg (by simp), if_pos ⟨rfl, hp⟩]
    rcases hp with h0 | h0 <;> rw [h0] <;> simp

/-- C2 (amended): in CrudeTradingEnv, slippage is charged on every full step
regardless of position and the transaction cost whenever the submitted action
is 1 or 2 (whether or not a flip executes); in RollingWindowMomentumEnv, both
cost legs are charged exactly on the steps where the position changes (a flip
executes) and are 0 otherwise; in the rule-based backtest, a HOLD signal
leaves barrels and cash untouched, so the transaction cost enters only through
the BUY and SELL branches. -/
theorem c2_cost_charging :
    (∀ (std_fn : List ℚ → ℚ) (cfg : CrudeCfg) (df : List Bar) (s : EnvState) (a : Nat)
      (res : CrudeStepResult) (i : CrudeInfo),
      crude_step std_fn cfg df s a = some res → res.info? = some i →
      i.slippage = cfg.slippage_rate ∧
      i.txn_cost = if a = 1 ∨ a = 2 then cfg.transaction_cost_rate else 0) ∧
    (∀ (cfg : RollingCfg) (df : List Bar) (s : EnvState) (a : Nat) (res : RollingResult),
      rolling_step cfg df s a = some res →
      (res.info.txn_cost, res.info.slippage) =
        if res.state.position = s.position then ((0 : ℚ), (0 : ℚ))
        else (cfg.transaction_cost, cfg.slippage)) ∧
    (∀ (transaction_cost prediction current_price position cash : ℚ),
      (trading_signal transaction_cost prediction current_price position cash).2.2 =
        TAction.HOLD →
      (trading_signal transaction_cost prediction current_price position cash).1 = position ∧
      (trading_signal transaction_cost prediction current_price position cash).2.1 = cash) := by
  refine ⟨?_, ?_, ?_⟩
  · intro std_fn cfg df s a res i hstep hinfo
    unfold crude_step at hstep
    split at hstep
    · injection hstep with h
      subst h
      simp [CrudeStepResult.info?] at hinfo
    · split at hstep
      · injection hstep with h
        subst h
        simp only [crude_step_core, crude_calculate_return, CrudeStepResult.info?,
          Option.some.injEq] at hinfo
        subst hinfo
        constructor <;> rfl
      · exact absurd hstep (by simp)
  · intro cfg df s a res hstep
    unfold rolling_step at hstep
    split at hstep
    · rename_i prev_bar cur_bar heq1 heq2
      injection hstep with h
      subst h
      by_cases ht : trade_executes s (rolling_effective_action cfg s a) = true
      · have hne := apply_trade_action_position_ne s prev_bar.close_price
          (rolling_effective_action cfg s a) ht
        simp only [rolling_step_core, ht, if_true]
        rw [if_neg hne]
      · rw [Bool.not_eq_true] at ht
        have hid := apply_trade_action_of_not_executes s prev_bar.close_price
          (rolling_effective_action cfg s a) ht
        simp only [rolling_step_core, ht, Bool.false_eq_true, if_false, hid, if_pos rfl]
        simp
    · exact absurd hstep (by simp)
  · intro transaction_cost prediction current_price position cash hhold
    by_cases h1 : current_price < prediction ∧ position = 0
    · exfalso
      unfold trading_signal at hhold
      rw [if_pos h1] at hhold
      exact absurd hhold (by simp)
    · by_cases h2 : prediction < current_price ∧ 0 < position
      · exfalso
        unfold trading_signal at hhold
        rw [if_neg h1, if_pos h2] at hhold
        exact absurd hhold (by simp)
      · unfold trading_signal
        rw [if_neg h1, if_neg h2]
        exact ⟨rfl, rfl⟩

/-- C2 counterexample: the claim as stated is false on both environments.  In
CrudeTradingEnv a HOLD step while FLAT with no flip still charges slippage
0.0007; in RollingWindowMomentumEnv a step with an open LONG position and no
flip charges neither transaction cost nor slippage although both configured
rates are nonzero. -/
theorem c2_counterexample :
    crude_step stdZero cfgC dfC esFlat 0 = some resC1 ∧
    esFlat.position = 0 ∧
    Option.map CrudeInfo.slippage resC1.info? = some (7 / 10000) ∧
    ((7 : ℚ) / 10000 ≠ 0) ∧
    rolling_step cfgR df3 esHeld3 0 = some resC2R ∧
    esHeld3.position = 1 ∧ resC2R.state.position = 1 ∧
    resC2R.info.txn_cost = 0 ∧ resC2R.info.slippage = 0 ∧
    cfgR.transaction_cost ≠ 0 ∧ cfgR.slippage ≠ 0 := by
  refine ⟨?_, rfl, rfl, by norm_num, ?_, rfl, rfl, rfl, rfl,
    by norm_num [cfgR, RollingCfg.transaction_cost],
    by norm_num [cfgR, RollingCfg.slippage]⟩
  · simp [crude_step, crude_step_core, crude_calculate_return, crude_calculate_reward,
      apply_trade_action, cfgC, dfC, esFlat, bar0, resC1, CrudeCfg.transaction_cost_rate,
      CrudeCfg.slippage_rate, stdZero]
    norm_num
  · simp [rolling_step, rolling_step_core, rolling_effective_action, trade_executes,
      apply_trade_action, cfgR, df3, esHeld3, bar0, resC2R, RollingCfg.transaction_cost,
      RollingCfg.slippage, rollingEps]

/-- Witness for C2: the amended cost rules instantiated at concrete steps of
both environments and at a concrete HOLD signal of the rule-based simulator. -/
theorem c2_witness :
    (∃ i, resC1.info? = some i ∧ i.slippage = cfgC.slippage_rate) ∧
    ((resC2R.info.txn_cost, resC2R.info.slippage) = ((0 : ℚ), (0 : ℚ))) ∧
    ((trading_signal (1 / 1000) 100 100 5 7).1 = 5 ∧
      (trading_signal (1 / 1000) 100 100 5 7).2.1 = 7) := by
  have hc : crude_step stdZero cfgC dfC esFlat 0 = some resC1 := by
    simp [crude_step, crude_step_core, crude_calculate_return, crude_calculate_reward,
      apply_trade_action, cfgC, dfC, esFlat, bar0, resC1, CrudeCfg.transaction_cost_rate,
      CrudeCfg.slippage_rate, stdZero]
    norm_num
  have hr : rolling_step cfgR df3 esHeld3 0 = some resC2R := by
    simp [rolling_step, rolling_step_core, rolling_effective_action, trade_executes,
      apply_trade_action, cfgR, df3, esHeld3, bar0, resC2R, RollingCfg.transaction_cost,
      RollingCfg.slippage, rollingEps]
  have hh : (trading_signal (1 / 1000) 100 100 5 7).2.2 = TAction.HOLD := by
    norm_num [trading_signal]
  exact ⟨⟨_, rfl, (c2_cost_charging.1 stdZero cfgC dfC esFlat 0 resC1 _ hc rfl).1⟩,
    (c2_cost_charging.2.1 cfgR df3 esHeld3 0 resC2R hr).trans (if_pos rfl),
    c2_cost_charging.2.2 (1 / 1000) 100 100 5 7 hh⟩

/-- C3 (amended): in RollingWindowMomentumEnv with `min_holding_days = 3`, a
flip action submitted while a position is held for fewer than 3 days is
coerced to HOLD: the position and entry price are unchanged, and the
holding-day counter advances by one exactly as on a HOLD step (it is not
reset); once `holding_days` has reached 3, the flip executes. -/
theorem c3_min_hold :
    (∀ (cfg : RollingCfg) (df : List Bar) (s : EnvState) (a : Nat) (res : RollingResult),
      cfg.min_holding_days = 3 → s.position ≠ 0 → s.holding_days < 3 → (a = 1 ∨ a = 2) →
      rolling_step cfg df s a = some res →
      res.state.position = s.position ∧ res.state.entry_price = s.entry_price ∧
      res.state.holding_days = s.holding_days + 1) ∧
    (∀ (cfg : RollingCfg) (df : List Bar) (s : EnvState) (res : RollingResult),
      cfg.min_holding_days = 3 → 3 ≤ s.holding_days → s.position = 1 →
      rolling_step cfg df s 2 = some res → res.state.position = -1) ∧
    (∀ (cfg : RollingCfg) (df : List Bar) (s : EnvState) (res : RollingResult),
      cfg.min_holding_days = 3 → 3 ≤ s.holding_days → s.position = -1 →
      rolling_step cfg df s 1 = some res → res.state.position = 1) := by
  refine ⟨?_, ?_, ?_⟩
  · intro cfg df s a res hmin hpos hhd ha hstep
    have hact : rolling_effective_action cfg s a = 0 := by
      unfold rolling_effective_action
      rw [if_pos ⟨hpos, by omega, ha⟩]
    have htf : trade_executes s (rolling_effective_action cfg s a) = false := by
      rw [hact]
      simp [trade_executes]
    unfold rolling_step at hstep
    split at hstep
    · rename_i prev_bar cur_bar heq1 heq2
      injection hstep with h
      subst h
      have hid := apply_trade_action_of_not_executes s prev_bar.close_price
        (rolling_effective_action cfg s a) htf
      simp only [rolling_step_core, hid]
      simp [hpos]
    · exact absurd hstep (by simp)
  · intro cfg df s res hmin hhd hpos hstep
    have hact : rolling_effective_action cfg s 2 = 2 := by
      unfold rolling_effective_action
      rw [if_neg]
      rintro ⟨-, h2, -⟩
      omega
    unfold rolling_step at hstep
    split at hstep
    · rename_i prev_bar cur_bar heq1 heq2
      injection hstep with h
      subst h
      simp [rolling_step_core, hact, apply_trade_action, hpos]
    · exact absurd hstep (by simp)
  · intro cfg df s res hmin hhd hpos hstep
    have hact : rolling_effective_action cfg s 1 = 1 := by
      unfold rolling_effective_action
      rw [if_neg]
      rintro ⟨-, h2, -⟩
      omega
    unfold rolling_step at hstep
    split at hstep
    · rename_i prev_bar cur_bar heq1 heq2
      injection hstep with h
      subst h
      simp [rolling_step_core, hact, apply_trade_action, hpos]
    · exact absurd hstep (by simp)

/-- C3 counterexample: with `min_holding_days = 3`, open LONG at step 0
(reaching `esHeld` with `holding_days = 1`), then submit the flip action 2 at
step 1.  The flip is coerced to HOLD and position and entry price are kept,
but `holding_days` advances from 1 to 2, so the claim that the coerced step
leaves `holding_days` unchanged is false. -/
theorem c3_counterexample :
    rolling_step cfgR df3 esFlat 1 = some resOpen ∧ resOpen.state = esHeld ∧
    rolling_step cfgR df3 esHeld 2 = some resC3 ∧
    resC3.state.position = esHeld.position ∧
    resC3.state.entry_price = esHeld.entry_price ∧
    esHeld.holding_days = 1 ∧ resC3.state.holding_days = 2 ∧
    ¬ resC3.state.holding_days = esHeld.holding_days := by
  refine ⟨?_, rfl, ?_, rfl, rfl, rfl, rfl, by decide⟩
  · simp [rolling_step, rolling_step_core, rolling_effective_action, trade_executes,
      apply_trade_action, cfgR, df3, esFlat, bar0, resOpen, esHeld,
      RollingCfg.transaction_cost, RollingCfg.slippage, rollingEps]
    norm_num
  · simp [rolling_step, rolling_step_core, rolling_effective_action, trade_executes,
      apply_trade_action, cfgR, df3, esHeld, bar0, resC3,
      RollingCfg.transaction_cost, RollingCfg.slippage, rollingEps]

/-- Witness for C3: the amended minimum-hold rules instantiated at the
concrete run (coerced flip at holding day 1, executed flip at holding day 3). -/
theorem c3_witness :
    cfgR.min_holding_days = 3 ∧ esHeld.position ≠ 0 ∧ esHeld.holding_days < 3 ∧
    (resC3.state.position = esHeld.position ∧
      resC3.state.entry_price = esHeld.entry_price ∧
      resC3.state.holding_days = esHeld.holding_days + 1) ∧
    3 ≤ esHeld3.holding_days ∧ esHeld3.position = 1 ∧ resFlip.state.position = -1 := by
  have h1 : rolling_step cfgR df3 esHeld 2 = some resC3 := by
    simp [rolling_step, rolling_step_core, rolling_effective_action, trade_executes,
      apply_trade_action, cfgR, df3, esHeld, bar0, resC3,
      RollingCfg.transaction_cost, RollingCfg.slippage, rollingEps]
  have h2 : rolling_step cfgR df3 esHeld3 2 = some resFlip := by
    simp [rolling_step, rolling_step_core, rolling_effective_action, trade_executes,
      apply_trade_action, cfgR, df3, esHeld3, bar0, resFlip,
      RollingCfg.transaction_cost, RollingCfg.slippage, rollingEps]
    norm_num
  exact ⟨rfl, by decide, by decide,
    c3_min_hold.1 cfgR df3 esHeld 2 resC3 rfl (by decide) (by decide) (Or.inr rfl) h1,
    by decide, rfl,
    c3_min_hold.2.1 cfgR df3 esHeld3 resFlip rfl (by decide) rfl h2⟩

/-- The position-update block never sets the position to 0. -/
theorem apply_trade_action_position_ne_zero (s : EnvState) (p : ℚ) (a : Nat)
    (h : s.position ≠ 0) : (apply_trade_action s p a).position ≠ 0 := by
  unfold apply_trade_action
  split_ifs <;> simp [h]

/-- One crude step keeps a non-flat position non-flat. -/
theorem crude_step_position_ne_zero (std_fn : List ℚ → ℚ) (cfg : CrudeCfg) (df : List Bar)
    (s : EnvState) (a : Nat) (res : CrudeStepResult) (hpos : s.position ≠ 0)
    (hstep : crude_step std_fn cfg df s a = some res) : res.state.position ≠ 0 := by
  unfold crude_step at hstep
  split at hstep
  · injection hstep with h
    subst h
    exact hpos
  · split at hstep
    · rename_i pb cb h1 h2
      injection hstep with h
      subst h
      exact apply_trade_action_position_ne_zero s pb.close_price a hpos
    · exact absurd hstep (by simp)

/-- One rolling step keeps a non-flat position non-flat. -/
theorem rolling_step_position_ne_zero (cfg : RollingCfg) (df : List Bar)
    (s : EnvState) (a : Nat) (res : RollingResult) (hpos : s.position ≠ 0)
    (hstep : rolling_step cfg df s a = some res) : res.state.position ≠ 0 := by
  unfold rolling_step at hstep
  split at hstep
  · rename_i pb cb h1 h2
    injection hstep with h
    subst h
    exact apply_trade_action_position_ne_zero s pb.close_price
      (rolling_effective_action cfg s a) hpos
  · exact absurd hstep (by simp)

/-- C10: in both environments no action ever closes a position back to cash:
from any state with a non-flat position, every action sequence leaves the
position non-flat (it can only flip between long and short) until the next
reset. -/
theorem c10_position_never_flat :
    (∀ (std_fn : List ℚ → ℚ) (cfg : CrudeCfg) (df : List Bar) (s : EnvState)
      (acts : List Nat), s.position ≠ 0 → (crude_run std_fn cfg df s acts).position ≠ 0) ∧
    (∀ (cfg : RollingCfg) (df : List Bar) (s : EnvState) (acts : List Nat),
      s.position ≠ 0 → (rolling_run cfg df s acts).position ≠ 0) := by
  constructor
  · intro std_fn cfg df s acts
    induction acts generalizing s with
    | nil => exact fun h => h
    | cons a rest ih =>
      intro h
      rcases hstep : crude_step std_fn cfg df s a with _ | r
      · simp only [crude_run, hstep]
        exact h
      · simp only [crude_run, hstep]
        exact ih r.state (crude_step_position_ne_zero std_fn cfg df s a r h hstep)
  · intro cfg df s acts
    induction acts generalizing s with
    | nil => exact fun h => h
    | cons a rest ih =>
      intro h
      rcases hstep : rolling_step cfg df s a with _ | r
      · simp only [rolling_run, hstep]
        exact h
      · simp only [rolling_run, hstep]
        exact ih r.state (rolling_step_position_ne_zero cfg df s a r h hstep)

/-- Witness for C10: concrete held states and action sequences (including
flips and holds) in both environments keep the position non-flat. -/
theorem c10_witness :
    esHeld.position ≠ 0 ∧
    (crude_run stdZero cfgC dfC esHeld [2, 0]).position ≠ 0 ∧
    (rolling_run cfgR df3 esHeld [0, 2, 1]).position ≠ 0 :=
  ⟨by decide,
   c10_position_never_flat.1 stdZero cfgC dfC esHeld [2, 0] (by decide),
   c10_position_never_flat.2 cfgR df3 esHeld [0, 2, 1] (by decide)⟩

/-- C7 (amended): neither environment validates prices.  Whenever the two
consumed dataframe rows exist, `step` returns a result even when the consumed
bar price is non-positive: the return is computed through the eps-guarded
denominator and the run continues; no InvalidPriceError (or any other price
check) exists in either step function. -/
theorem c7_no_price_validation :
    (∀ (cfg : RollingCfg) (df : List Bar) (s : EnvState) (a : Nat) (pb cb : Bar),
      df[s.current_step]? = some pb → df[s.current_step + 1]? = some cb →
      pb.close_price ≤ 0 → ∃ res, rolling_step cfg df s a = some res) ∧
    (∀ (std_fn : List ℚ → ℚ) (cfg : CrudeCfg) (df : List Bar) (s : EnvState) (a : Nat)
      (pb cb : Bar),
      df[s.current_step]? = some pb → df[s.current_step + 1]? = some cb →
      pb.close_price ≤ 0 → ∃ res, crude_step std_fn cfg df s a = some res) := by
  constructor
  · intro cfg df s a pb cb h1 h2 hprice
    refine ⟨rolling_step_core cfg df.length pb cb s a, ?_⟩
    unfold rolling_step
    rw [h1, h2]
  · intro std_fn cfg df s a pb cb h1 h2 hprice
    unfold crude_step
    by_cases hend : cfg.end_index ≤ s.current_step
    · exact ⟨CrudeStepResult.endOfData s, by rw [if_pos hend]⟩
    · refine ⟨crude_step_core std_fn cfg pb cb s a, ?_⟩
      rw [if_neg hend, h1, h2]

/-- C7 counterexample: with a consumed bar price of 0 (non-positive), the
momentum environment's step does not abort: it returns a result whose net
return is the eps-guarded value 5/(0 + 1e-12) - 0.001. -/
theorem c7_counterexample :
    (bar0 0).close_price ≤ 0 ∧
    df7[esFlat.current_step]? = some (bar0 0) ∧
    rolling_step cfgR df7 esFlat 1 = some resPrice0 ∧
    resPrice0.info.net_return = 4999999999999999 / 1000 := by
  refine ⟨le_refl 0, rfl, ?_, rfl⟩
  simp [rolling_step, rolling_step_core, rolling_effective_action, trade_executes,
    apply_trade_action, cfgR, df7, esFlat, bar0, resPrice0,
    RollingCfg.transaction_cost, RollingCfg.slippage, rollingEps]
  norm_num

/-- Witness for C7: both step functions return a result at the concrete series
whose first price is 0. -/
theorem c7_witness :
    (bar0 0).close_price ≤ 0 ∧
    (∃ res, rolling_step cfgR df7 esFlat 1 = some res) ∧
    (∃ res, crude_step stdZero cfgC df7 esFlat 1 = some res) :=
  ⟨le_refl 0,
   c7_no_price_validation.1 cfgR df7 esFlat 1 (bar0 0) (bar0 5) rfl rfl (le_refl 0),
   c7_no_price_validation.2 stdZero cfgC df7 esFlat 1 (bar0 0) (bar0 5) rfl rfl (le_refl 0)⟩

/-- C8 (amended): the forecast-accuracy engine returns the empty result
exactly when there are zero aligned pairs; with exactly one pair it returns a
populated metrics dict (whose correlation is the NaN of a single-point
`Series.corr`), and it raises in neither case. -/
theorem c8_accuracy_empty_result :
    (∀ (sqrt_fn : ℚ → ℚ) (df : List PredRow),
      calculate_accuracy_metrics sqrt_fn df = none ↔ df = []) ∧
    (∀ (sqrt_fn : ℚ → ℚ) (p : PredRow),
      (calculate_accuracy_metrics sqrt_fn [p]).map (fun m => m.correlation) =
        some none) := by
  constructor
  · intro sqrt_fn df
    unfold calculate_accuracy_metrics
    split_ifs with h
    · simp [h]
    · simp [h]
  · intro sqrt_fn p
    simp [calculate_accuracy_metrics, pearson]

/-- C8 counterexample: a single aligned pair (fewer than 2) yields a populated
metrics dict (mae 1), not the empty result. -/
theorem c8_counterexample :
    calculate_accuracy_metrics sqrtZero [{ prediction := 101, actual := 100 }] ≠ none ∧
    (calculate_accuracy_metrics sqrtZero [{ prediction := 101, actual := 100 }]).map
      (fun m => m.mae) = some 1 := by
  constructor
  · simp [calculate_accuracy_metrics]
  · simp [calculate_accuracy_metrics]
    norm_num

/-- C9: the buy-and-hold baseline equals `initial_capital * (last/first)`
whenever the series is nonempty, and the baseline component of a full backtest
run is unchanged by the strategy's transaction-cost rate. -/
theorem c9_buy_and_hold :
    (∀ (df : List PredRow) (initial_capital : ℚ) (f l : PredRow) (m : BnhMetrics),
      df.head? = some f → df.getLast? = some l →
      calculate_buy_and_hold df initial_capital = some m →
      m.final_value = initial_capital * (l.actual / f.actual)) ∧
    (∀ (std_fn : List ℚ → ℚ) (sqrt_fn : ℚ → ℚ) (df : List PredRow)
      (initial_capital tc1 tc2 : ℚ),
      (run_trading_backtest std_fn sqrt_fn df initial_capital tc1).2 =
        (run_trading_backtest std_fn sqrt_fn df initial_capital tc2).2) := by
  constructor
  · intro df initial_capital f l m hf hl hm
    unfold calculate_buy_and_hold at hm
    rw [hf, hl] at hm
    injection hm with h
    subst h
    show initial_capital / f.actual * l.actual = initial_capital * (l.actual / f.actual)
    rw [div_mul_eq_mul_div, mul_div_assoc]
  · intro std_fn sqrt_fn df initial_capital tc1 tc2
    rfl

/-- Witness for C9: the concrete series 100 → 110 with capital 10000 yields
the baseline 11000 = 10000 * (110/100), and two runs with different cost
rates report the same baseline. -/
theorem c9_witness :
    dfBH.head? = some ⟨0, 100⟩ ∧ dfBH.getLast? = some ⟨0, 110⟩ ∧
    calculate_buy_and_hold dfBH 10000 = some mBH ∧
    mBH.final_value = 10000 * ((110 : ℚ) / 100) ∧
    (run_trading_backtest stdZero sqrtZero dfBH 10000 (1 / 1000)).2 =
      (run_trading_backtest stdZero sqrtZero dfBH 10000 (2 / 1000)).2 := by
  have hm : calculate_buy_and_hold dfBH 10000 = some mBH := by
    simp [calculate_buy_and_hold, dfBH, mBH]
    norm_num
  exact ⟨rfl, rfl, hm,
    c9_buy_and_hold.1 dfBH 10000 ⟨0, 100⟩ ⟨0, 110⟩ mBH rfl rfl hm,
    c9_buy_and_hold.2 stdZero sqrtZero dfBH 10000 (1 / 1000) (2 / 1000)⟩

/-- C5 (code bug): on `df5` a BUY fires at row 0 and the position is still
open when the loop ends.  The closing cash that lines 72-75 of the source
compute is discarded: the returned ledger's final record still shows the open
position (action HOLD, 100000/1001 barrels > 0) valued at the pre-final price,
and `calculate_trading_metrics` reads that unclosed value 10000000/1001 as
`final_value`, which differs from the realized closure value 9990000/1001. -/
theorem c5_open_position_left_in_ledger :
    ((simulate_trading_strategy df5 10000 (1 / 1000)).getLast?).map
        (fun r => (r.action, r.position, r.portfolio_value)) =
      some (TAction.HOLD, 100000 / 1001, 10000000 / 1001) ∧
    ((0 : ℚ) < 100000 / 1001) ∧
    (calculate_trading_metrics stdZero sqrtZero
        (simulate_trading_strategy df5 10000 (1 / 1000)) 10000).map
        (fun m => m.final_value) = some (10000000 / 1001) ∧
    close_out_cash df5 (1 / 1000) (100000 / 1001) 0 = 9990000 / 1001 ∧
    ((9990000 / 1001 : ℚ) ≠ 10000000 / 1001) := by
  refine ⟨?_, by norm_num, ?_, ?_, by norm_num⟩
  · norm_num [simulate_trading_strategy, simulate_go, trading_signal, df5]
  · norm_num [simulate_trading_strategy, simulate_go, trading_signal, df5,
      calculate_trading_metrics]
  · norm_num [close_out_cash, df5]

/-- C6 (code bug): on `df6` the ledger has three BUY/SELL rows of which two
carry a positive running return, so `calculate_trading_metrics` reports
`total_trades = 3 // 2 = 1` and `win_rate = 2/1 * 100 = 200` percent,
exceeding 100%; the claimed formula (winning completed trades over completed
trades) can never exceed 100%. -/
theorem c6_win_rate_exceeds_100 :
    (calculate_trading_metrics stdZero sqrtZero
        (simulate_trading_strategy df6 10000 (1 / 1000)) 10000).map
        (fun m => (m.win_rate, m.total_trades)) = some (200, 1) ∧
    ((100 : ℚ) < 200) := by
  refine ⟨?_, by norm_num⟩
  norm_num [simulate_trading_strategy, simulate_go, trading_signal, df6,
    calculate_trading_metrics, List.filter,
    show decide (TAction.HOLD = TAction.BUY) = false from rfl,
    show decide (TAction.HOLD = TAction.SELL) = false from rfl]

/-- The cumulative product has the length of its input. -/
theorem cumprod_length (xs : List ℚ) : (cumprod xs).length = xs.length := by
  induction xs with
  | nil => rfl
  | cons x t ih => simp [cumprod, ih]

/-- The running maximum has the length of its input. -/
theorem running_max_length (xs : List ℚ) : (running_max xs).length = xs.length := by
  induction xs with
  | nil => rfl
  | cons x t ih => simp [running_max, ih]

/-- In-range `getD` commutes with `map`. -/
theorem getD_map_of_lt (f : ℚ → ℚ) : ∀ (l : List ℚ) (i : Nat), i < l.length →
    ∀ (d d' : ℚ), (l.map f).getD i d = f (l.getD i d') := by
  intro l
  induction l with
  | nil => intro i h; simp at h
  | cons x t ih =>
    intro i h d d'
    cases i with
    | zero => simp
    | succ n =>
      simp only [List.map_cons, List.getD_cons_succ]
      exact ih n (by simpa using h) d d'

/-- In-range `getD` commutes with `zipWith`. -/
theorem getD_zipWith_of_lt (f : ℚ → ℚ → ℚ) : ∀ (xs ys : List ℚ) (i : Nat),
    i < xs.length → i < ys.length → ∀ (d : ℚ),
    (List.zipWith f xs ys).getD i d = f (xs.getD i d) (ys.getD i d) := by
  intro xs
  induction xs with
  | nil => intro ys i hx; simp at hx
  | cons x xt ih =>
    intro ys i hx hy d
    cases ys with
    | nil => simp at hy
    | cons y yt =>
      cases i with
      | zero => simp
      | succ n =>
        simp only [List.zipWith_cons_cons, List.getD_cons_succ]
        exact ih yt n (by simpa using hx) (by simpa using hy) d

/-- Every entry of the running maximum dominates the corresponding input. -/
theorem getD_le_running_max : ∀ (xs : List ℚ) (i : Nat), i < xs.length →
    xs.getD i 0 ≤ (running_max xs).getD i 0 := by
  intro xs
  induction xs with
  | nil => intro i h; simp at h
  | cons x t ih =>
    intro i h
    cases i with
    | zero => simp [running_max]
    | succ n =>
      have hn : n < t.length := by simpa using h
      simp only [running_max, List.getD_cons_succ]
      rw [getD_map_of_lt _ _ n (by rwa [running_max_length]) 0 0]
      exact le_trans (ih n hn) (le_max_right _ _)

/-- The running maximum of a positive list is positive at every index. -/
theorem running_max_pos : ∀ (xs : List ℚ), (∀ y ∈ xs, 0 < y) → ∀ (i : Nat),
    i < xs.length → 0 < (running_max xs).getD i 0 := by
  intro xs
  induction xs with
  | nil => intro _ i h; simp at h
  | cons x t ih =>
    intro hx i h
    cases i with
    | zero => simpa [running_max] using hx x (by simp)
    | succ n =>
      have hn : n < t.length := by simpa using h
      simp only [running_max, List.getD_cons_succ]
      rw [getD_map_of_lt _ _ n (by rwa [running_max_length]) 0 0]
      exact lt_of_lt_of_le (hx x (by simp)) (le_max_left _ _)

/-- All entries of the cumulative product of a positive list are positive. -/
theorem cumprod_pos_mem : ∀ (xs : List ℚ), (∀ y ∈ xs, 0 < y) →
    ∀ z ∈ cumprod xs, 0 < z := by
  intro xs
  induction xs with
  | nil => intro _ z hz; simp [cumprod] at hz
  | cons x t ih =>
    intro hx z hz
    simp only [cumprod, List.mem_cons] at hz
    rcases hz with rfl | hz
    · exact hx z (by simp)
    · rcases List.mem_map.mp hz with ⟨w, hw, rfl⟩
      exact mul_pos (hx x (by simp)) (ih (fun y hy => hx y (by simp [hy])) w hw)

/-- Folding `max` from a seed distributes over a cons of the seed. -/
theorem foldl_max_cons (a : ℚ) : ∀ (l : List ℚ) (b : ℚ),
    List.foldl max (max a b) l = max a (List.foldl max b l) := by
  intro l
  induction l with
  | nil => intro b; rfl
  | cons z t ih =>
    intro b
    show List.foldl max (max (max a b) z) t = max a (List.foldl max (max b z) t)
    rw [max_assoc]
    exact ih (max b z)

/-- The code's `cummax` agrees at every index with the spec's running maximum
of the prefix. -/
theorem running_max_getD_eq_spec : ∀ (xs : List ℚ) (i : Nat), i < xs.length →
    (running_max xs).getD i 0 = spec_running_max xs i := by
  intro xs
  induction xs with
  | nil => intro i h; simp at h
  | cons x t ih =>
    intro i h
    cases i with
    | zero => simp [running_max, spec_running_max, list_max1]
    | succ n =>
      have hn : n < t.length := by simpa using h
      simp only [running_max, List.getD_cons_succ]
      rw [getD_map_of_lt _ _ n (by rwa [running_max_length]) 0 0, ih n hn]
      unfold spec_running_max
      rw [List.take_succ_cons]
      obtain ⟨y, ys, hys⟩ : ∃ y ys, t.take (n + 1) = y :: ys := by
        cases htk : t.take (n + 1) with
        | nil =>
          exfalso
          have hlen : (t.take (n + 1)).length = 0 := by rw [htk]; rfl
          rw [List.length_take] at hlen
          omega
        | cons y ys => exact ⟨y, ys, rfl⟩
      rw [hys]
      show max x (list_max1 (y :: ys)) = list_max1 (x :: y :: ys)
      show max x (List.foldl max y ys) = List.foldl max x (y :: ys)
      rw [List.foldl_cons]
      exact (foldl_max_cons x ys y).symm

/-- Folding `min` over a list yields the seed or a list element. -/
theorem foldl_min_mem : ∀ (l : List ℚ) (x : ℚ),
    List.foldl min x l = x ∨ List.foldl min x l ∈ l := by
  intro l
  induction l with
  | nil => intro x; left; rfl
  | cons z t ih =>
    intro x
    rcases ih (min x z) with h | h
    · rcases min_choice x z with hc | hc
      · left
        rw [List.foldl_cons, h, hc]
      · right
        rw [List.foldl_cons, h, hc]
        exact List.mem_cons_self z t
    · right
      rw [List.foldl_cons]
      exact List.mem_cons_of_mem z h

/-- Folding `min` over a list bounds the seed and every element. -/
theorem foldl_min_le : ∀ (l : List ℚ) (x : ℚ),
    List.foldl min x l ≤ x ∧ ∀ y ∈ l, List.foldl min x l ≤ y := by
  intro l
  induction l with
  | nil =>
    intro x
    exact ⟨le_refl x, fun y hy => absurd hy (by simp)⟩
  | cons z t ih =>
    intro x
    obtain ⟨h1, h2⟩ := ih (min x z)
    refine ⟨?_, ?_⟩
    · rw [List.foldl_cons]
      exact le_trans h1 (min_le_left x z)
    · intro y hy
      rw [List.foldl_cons]
      rcases List.mem_cons.mp hy with rfl | hy
      · exact le_trans h1 (min_le_right x y)
      · exact h2 y hy

/-- A nonempty list's `min?` is an attained lower bound: the way the spec
reads `max_drawdown = min(drawdown)`. -/
theorem min?_spec (l : List ℚ) (hne : l ≠ []) :
    ∃ d, l.min? = some d ∧ d ∈ l ∧ ∀ y ∈ l, d ≤ y := by
  cases l with
  | nil => exact absurd rfl hne
  | cons x t =>
    refine ⟨List.foldl min x t, rfl, ?_, ?_⟩
    · rcases foldl_min_mem t x with h | h
      · rw [h]
        exact List.mem_cons_self x t
      · exact List.mem_cons_of_mem x h
    · intro y hy
      rcases List.mem_cons.mp hy with rfl | hy
      · exact (foldl_min_le t y).1
      · exact (foldl_min_le t x).2 y hy

/-- The net equity curve has the length of the return ledger. -/
theorem net_equity_length (rs : List ℚ) : (net_equity rs).length = rs.length := by
  simp [net_equity, cumprod_length]

/-- The drawdown series has the length of the return ledger. -/
theorem net_drawdown_length (rs : List ℚ) : (net_drawdown rs).length = rs.length := by
  simp [net_drawdown, net_cummax, running_max_length, net_equity_length]

/-- C4 (amended): for every return ledger, the computed drawdown series
satisfies the spec formula
`drawdown[i] = (equity[i] - running_max(equity[0..i])) / running_max(equity[0..i])`
at every index, and the reported max_drawdown is the attained minimum of the
drawdown series; the bound `drawdown[i] ≤ 0` additionally holds whenever every
net return exceeds -1 (equivalently, the equity curve stays positive), which
the claim's unconditional form lacks. -/
theorem c4_drawdown (rs : List ℚ) :
    (∀ i, i < rs.length →
      (net_drawdown rs).getD i 0 =
        ((net_equity rs).getD i 0 - spec_running_max (net_equity rs) i) /
          spec_running_max (net_equity rs) i) ∧
    (rs ≠ [] → ∃ d, net_max_drawdown rs = some d ∧ d ∈ net_drawdown rs ∧
      ∀ y ∈ net_drawdown rs, d ≤ y) ∧
    ((∀ r ∈ rs, (-1 : ℚ) < r) → ∀ i, i < rs.length →
      (net_drawdown rs).getD i 0 ≤ 0) := by
  have hzip : ∀ i, i < rs.length → (net_drawdown rs).getD i 0 =
      ((net_equity rs).getD i 0 - (net_cummax rs).getD i 0) / (net_cummax rs).getD i 0 := by
    intro i hi
    have hie : i < (net_equity rs).length := by rwa [net_equity_length]
    have him : i < (net_cummax rs).length := by
      rw [net_cummax, running_max_length]
      exact hie
    unfold net_drawdown
    exact getD_zipWith_of_lt _ _ _ i hie him 0
  refine ⟨?_, ?_, ?_⟩
  · intro i hi
    have hie : i < (net_equity rs).length := by rwa [net_equity_length]
    have hspec : (net_cummax rs).getD i 0 = spec_running_max (net_equity rs) i :=
      running_max_getD_eq_spec (net_equity rs) i hie
    rw [hzip i hi, hspec]
  · intro hne
    have hlen : (net_drawdown rs).length = rs.length := net_drawdown_length rs
    have hdne : net_drawdown rs ≠ [] := by
      intro h
      apply hne
      have := congrArg List.length h
      rw [hlen] at this
      exact List.length_eq_zero.mp this
    exact min?_spec (net_drawdown rs) hdne
  · intro hpos i hi
    have hfac : ∀ y ∈ rs.map (fun r => 1 + r), 0 < y := by
      intro y hy
      rcases List.mem_map.mp hy with ⟨r, hr, rfl⟩
      have := hpos r hr
      linarith
    have heq_pos : ∀ y ∈ net_equity rs, 0 < y := by
      intro y hy
      exact cumprod_pos_mem (rs.map (fun r => 1 + r)) hfac y hy
    have hie : i < (net_equity rs).length := by rwa [net_equity_length]
    have hle : (net_equity rs).getD i 0 ≤ (net_cummax rs).getD i 0 :=
      getD_le_running_max (net_equity rs) i hie
    have hmx : 0 < (net_cummax rs).getD i 0 := running_max_pos (net_equity rs) heq_pos i hie
    rw [hzip i hi]
    exact div_nonpos_iff.mpr (Or.inr ⟨by linarith, le_of_lt hmx⟩)

/-- C4 counterexample: the return ledger [-2, 1/2] (a short position while the
price more than doubles produces a net return below -1) makes the equity curve
negative, and the computed drawdown series is [0, 1/2]: its second entry is
positive, refuting the unconditional bound `drawdown[i] ≤ 0`. -/
theorem c4_counterexample :
    net_drawdown [-2, 1 / 2] = [0, 1 / 2] ∧
    (¬ (net_drawdown [-2, 1 / 2]).getD 1 0 ≤ 0) ∧
    (∃ r, rolling_step cfgR dfShort esFlat 2 = some r ∧ r.info.net_return < -1) := by
  refine ⟨?_, ?_, ⟨_, rfl, ?_⟩⟩
  · norm_num [net_drawdown, net_equity, net_cummax, cumprod, running_max, max_def]
  · norm_num [net_drawdown, net_equity, net_cummax, cumprod, running_max, max_def]
  · norm_num [rolling_step, rolling_step_core, rolling_effective_action, trade_executes,
      apply_trade_action, cfgR, dfShort, esFlat, bar0, RollingCfg.transaction_cost,
      RollingCfg.slippage, rollingEps]

/-- Witness for C4: the ledger [1/10, -1/20] has every return above -1; the
amended theorem gives the nonpositive drawdown bound and the attained-minimum
max drawdown there. -/
theorem c4_witness :
    (∀ r ∈ ([1 / 10, -1 / 20] : List ℚ), (-1 : ℚ) < r) ∧
    (net_drawdown [1 / 10, -1 / 20]).getD 1 0 =
      ((net_equity [1 / 10, -1 / 20]).getD 1 0 -
        spec_running_max (net_equity [1 / 10, -1 / 20]) 1) /
        spec_running_max (net_equity [1 / 10, -1 / 20]) 1 ∧
    (net_drawdown [1 / 10, -1 / 20]).getD 1 0 ≤ 0 ∧
    (∃ d, net_max_drawdown [1 / 10, -1 / 20] = some d ∧
      d ∈ net_drawdown [1 / 10, -1 / 20] ∧
      ∀ y ∈ net_drawdown [1 / 10, -1 / 20], d ≤ y) := by
  have hr : ∀ r ∈ ([1 / 10, -1 / 20] : List ℚ), (-1 : ℚ) < r := by
    intro r hmem
    simp only [List.mem_cons, List.not_mem_nil, or_false] at hmem
    rcases hmem with rfl | rfl <;> norm_num
  exact ⟨hr, (c4_drawdown _).1 1 (by norm_num), (c4_drawdown _).2.2 hr 1 (by norm_num),
    (c4_drawdown _).2.1 (by simp)⟩
